import Mathlib

/-!
Verification of the stockdost service (`src/app.py`): a Flask app exposing
`/current-value/<ticker>` and `/forecast/<ticker>`.  We shallowly embed the
pipeline fetch → resample → fit → forecast → serialize.

Modelling decisions:
* Timestamps are calendar dates (`Date`).  `monthIdx` maps a date to its
  absolute month number `y*12 + (m-1)`; `monthEnd` maps an absolute month
  number to the month-end date (pandas `freq="M"` timestamps).
* Price values are `Option ℚ`: `none` models a pandas `NaN` cell (a month bin
  with no data after `resample("M")`), `some q` an observed price.
* The external market-data provider (`yfinance`) and the statistics library
  (`statsmodels` SARIMAX) are parameters: a provider is a function from
  (symbol, period) to an outcome (raise / a DataFrame), and the library is a
  pair of functions that either raise or return (a fitted model / a forecast
  value list).  The `try/except` wrappers in `app.py` turn a raise into
  `None`, which we model by `Option`.
* An HTTP response is a status code plus a body; `jsonify` payload shapes are
  inductive body types.  Logging is a side effect outside the embedding.
-/

/-- A calendar date, as carried by the pandas `DatetimeIndex` (year, month
1..12, day 1..31). -/
structure Date where
  y : Nat
  m : Nat
  d : Nat
deriving DecidableEq, Repr

/-- Chronological strict order on dates (lexicographic year, month, day). -/
def Date.lt (a b : Date) : Prop :=
  a.y < b.y ∨ (a.y = b.y ∧ (a.m < b.m ∨ (a.m = b.m ∧ a.d < b.d)))

instance Date.decLtPred (a b : Date) : Decidable (Date.lt a b) := by
  unfold Date.lt
  infer_instance

instance : LT Date := ⟨Date.lt⟩

instance Date.decLt (a b : Date) : Decidable (a < b) :=
  Date.decLtPred a b

/-- Chronological non-strict order on dates. -/
def Date.le (a b : Date) : Prop := Date.lt a b ∨ a = b

instance : LE Date := ⟨Date.le⟩

instance Date.decLe (a b : Date) : Decidable (a ≤ b) := by
  show Decidable (Date.le a b)
  unfold Date.le
  infer_instance

/-- The month of a date as an absolute month count since year 0 (the pandas
month-bin key of a timestamp). -/
def monthIdx (dt : Date) : Nat := dt.y * 12 + (dt.m - 1)

/-- A month number is valid when it lies in 1..12. -/
def validMonth (dt : Date) : Prop := 1 ≤ dt.m ∧ dt.m ≤ 12

instance (dt : Date) : Decidable (validMonth dt) := by
  unfold validMonth; infer_instance

/-- Gregorian leap-year test. -/
def isLeap (y : Nat) : Bool := (y % 4 == 0 && !(y % 100 == 0)) || y % 400 == 0

/-- Number of days in month `m` of year `y`. -/
def daysInMonth (y m : Nat) : Nat :=
  if m = 2 then (if isLeap y then 29 else 28)
  else if m = 4 || m = 6 || m = 9 || m = 11 then 30
  else 31

/-- The month-end date (pandas `freq="M"` timestamp) of absolute month `k`. -/
def monthEnd (k : Nat) : Date :=
  ⟨k / 12, k % 12 + 1, daysInMonth (k / 12) (k % 12 + 1)⟩

/-- The month-end immediately following the month of `dt`. -/
def nextMonthEnd (dt : Date) : Date := monthEnd (monthIdx dt + 1)

/-- A time-indexed series of (possibly missing) prices — a pandas float
`Series`, `none` standing for `NaN`. -/
abbrev Series := List (Date × Option ℚ)

/-- One row of the provider's history DataFrame (only the columns the app
touches matter; `app.py` reads `df["Close"]`). -/
structure Row where
  openPrice : Option ℚ
  closePrice : Option ℚ
deriving DecidableEq, Repr

/-- The provider's history result: a time-indexed frame of rows. -/
abbrev DataFrame := List (Date × Row)

/-- The `Close` column of a history DataFrame (`df["Close"]`). -/
def closeSeries (df : DataFrame) : Series :=
  df.map (fun p => (p.1, p.2.closePrice))

/-- Outcome of one provider call `yf.Ticker(t).history(period)`: the call
either raises or returns a DataFrame (possibly empty). -/
inductive FetchOutcome where
  | raise
  | ok (df : DataFrame)

/-- A market-data provider: symbol and period determine the call's outcome. -/
abbrev Provider := String → String → FetchOutcome

/-- `fetch_stock_data` from `app.py` (lines 13–22): query the provider; if the
frame is empty return `None`, else the `Close` column; any raise is caught and
becomes `None` (the log call is a side effect outside the embedding).  The
Python default `period="5y"` is passed explicitly by our callers. -/
def fetch_stock_data (provider : Provider) (ticker period : String) :
    Option Series :=
  match provider ticker period with
  | .raise => none
  | .ok df => if df.isEmpty then none else some (closeSeries df)

/-- Entries of `data` falling in absolute month `k` (a pandas resample bin). -/
def mgroup (data : Series) (k : Nat) : Series :=
  data.filter (fun p => monthIdx p.1 == k)

/-- The last non-`NaN` value of a bin (`Resampler.last` skips `NaN`; an empty
or all-`NaN` bin yields `NaN`). -/
def lastClose (g : Series) : Option ℚ :=
  (g.filterMap (fun p => p.2)).getLast?

/-- `resample_monthly` from `app.py` (lines 25–26), i.e.
`data.resample("M").last()`: one row per calendar month from the month of the
first index entry to the month of the last, indexed at month-ends, holding the
last observed value of that month (`NaN` for a month with no data). -/
def resample_monthly (data : Series) : Series :=
  match data.head?, data.getLast? with
  | some a, some b =>
      (List.range (monthIdx b.1 + 1 - monthIdx a.1)).map
        (fun i => (monthEnd (monthIdx a.1 + i),
                   lastClose (mgroup data (monthIdx a.1 + i))))
  | _, _ => []

/-- Outcome of a statistics-library call: raise with a message, or return. -/
inductive LibResult (α : Type) where
  | raise (msg : String)
  | ok (a : α)

/-- `fit_sarimax` from `app.py` (lines 29–35): call the library's fit on the
series; a raise is caught, logged, and turned into `None`.  `fitLib` stands
for `SARIMAX(data, order=(1,1,1), seasonal_order=(1,1,1,12)).fit(disp=False)`. -/
def fit_sarimax {M : Type} (fitLib : Series → LibResult M) (data : Series) :
    Option M :=
  match fitLib data with
  | .raise _ => none
  | .ok m => some m

/-- `forecast` from `app.py` (lines 38–43): call `model.forecast(steps)`;
a raise is caught, logged, and turned into `None`. -/
def forecast {M : Type} (fcLib : M → Nat → LibResult (List ℚ)) (model : M)
    (steps : Nat) : Option (List ℚ) :=
  match fcLib model steps with
  | .raise _ => none
  | .ok vs => some vs

/-- An HTTP response: status code and JSON body. -/
structure HttpResponse (B : Type) where
  status : Nat
  body : B
deriving DecidableEq, Repr

/-- Body of a `/current-value` response: either `{"currentPrice": p}` or
`{"error": s}`. -/
inductive CVBody where
  | price (p : Option ℚ)
  | err (s : String)
deriving DecidableEq, Repr

/-- Zero-pad a number to two digits (`strftime` `%d`/`%m`). -/
def pad2 (n : Nat) : String :=
  if n < 10 then "0" ++ toString n else toString n

/-- Zero-pad a year to four digits (`strftime` `%Y`). -/
def pad4 (n : Nat) : String :=
  if n < 10 then "000" ++ toString n
  else if n < 100 then "00" ++ toString n
  else if n < 1000 then "0" ++ toString n
  else toString n

/-- `date.strftime("%d-%m-%Y")`. -/
def fmtDate (dt : Date) : String :=
  pad2 dt.d ++ "-" ++ pad2 dt.m ++ "-" ++ pad4 dt.y

/-- `get_current_value` from `app.py` (lines 45–56).  `fetch_stock_data` is
called on `f"{ticker}.KA"`; if it returns `None`, the subsequent
`df.iloc[-1]` raises and the `except` answers 400 with the invalid-ticker
message; `iloc[-1]` on an empty series would raise into the same handler
(unreachable, since `fetch_stock_data` never returns an empty series). -/
def get_current_value (provider : Provider) (ticker : String) :
    HttpResponse CVBody :=
  match fetch_stock_data provider (ticker ++ ".KA") "5y" with
  | none => ⟨400, .err ("Invalid ticker symbol: " ++ ticker)⟩
  | some df =>
    match df.getLast? with
    | none => ⟨400, .err ("Invalid ticker symbol: " ++ ticker)⟩
    | some p => ⟨200, .price p.2⟩

/-- One element of the `forecast` array: `{"Date": ..., "Forecast": ...}`. -/
structure ForecastEntry where
  Date : String
  Forecast : ℚ
deriving DecidableEq, Repr

/-- The 200 payload of `/forecast` (`app.py` lines 86–93). -/
structure ForecastOk where
  currentPrice : Option ℚ
  forecast : List ForecastEntry
  historicalDates : List String
  historicalValues : List (Option ℚ)
  forecastDates : List String
  forecastValues : List ℚ
deriving DecidableEq, Repr

/-- Body of a `/forecast` response. -/
inductive FBody where
  | ok (r : ForecastOk)
  | err (s : String)
deriving DecidableEq, Repr

/-- `pd.date_range(start, periods=n, freq="M")`: the first `n` month-end
timestamps at or after `start` (for a valid `start`, the first is the
month-end of `start`'s own month). -/
def date_range_M (start : Date) (periods : Nat) : List Date :=
  (List.range periods).map (fun i => monthEnd (monthIdx start + i))

/-- `get_forecast` from `app.py` (lines 58–96).  The two `getLast? = none`
branches embed the outer `except Exception` handler (lines 94–96), which
answers 500 with the raised exception's message; they are unreachable because
`fetch_stock_data` never returns an empty series. -/
def get_forecast (M : Type) (provider : Provider) (ticker : String)
    (fitLib : Series → LibResult M) (fcLib : M → Nat → LibResult (List ℚ)) :
    HttpResponse FBody :=
  match fetch_stock_data provider (ticker ++ ".KA") "5y" with
  | none => ⟨400, .err ("Invalid ticker symbol: " ++ ticker)⟩
  | some df =>
    match df.getLast? with
    | none => ⟨500, .err "single positional indexer is out-of-bounds"⟩
    | some lastDaily =>
      let monthly := resample_monthly df
      match fit_sarimax fitLib monthly with
      | none => ⟨500, .err "Failed to fit forecasting model"⟩
      | some model =>
        match forecast fcLib model 6 with
        | none => ⟨500, .err "Failed to generate forecast"⟩
        | some vs =>
          match monthly.getLast? with
          | none => ⟨500, .err "index -1 is out of bounds for axis 0 with size 0"⟩
          | some lm =>
            let futureDates := (date_range_M lm.1 7).drop 1
            let forecastData := (futureDates.zip vs).map
              (fun p => ⟨fmtDate p.1, p.2⟩)
            ⟨200,
             .ok { currentPrice := lastDaily.2
                   forecast := forecastData
                   historicalDates := monthly.map (fun p => fmtDate p.1)
                   historicalValues := monthly.map (fun p => p.2)
                   forecastDates := forecastData.map (fun e => e.Date)
                   forecastValues := forecastData.map (fun e => e.Forecast) }⟩

/-! ### Calendar arithmetic -/

theorem monthIdx_monthEnd (k : Nat) : monthIdx (monthEnd k) = k := by
  unfold monthIdx monthEnd
  dsimp only
  omega

theorem monthEnd_lt_monthEnd {k j : Nat} (h : k < j) : monthEnd k < monthEnd j := by
  show Date.lt (monthEnd k) (monthEnd j)
  unfold Date.lt monthEnd
  dsimp only
  omega

theorem nextMonthEnd_monthEnd (k : Nat) : nextMonthEnd (monthEnd k) = monthEnd (k + 1) := by
  unfold nextMonthEnd
  rw [monthIdx_monthEnd]

theorem monthIdx_le_of_le {a b : Date} (ha : validMonth a) (hb : validMonth b)
    (h : a ≤ b) : monthIdx a ≤ monthIdx b := by
  rcases (h : Date.le a b) with h' | rfl
  · unfold Date.lt at h'
    unfold validMonth at ha hb
    unfold monthIdx
    omega
  · exact Nat.le_refl _

/-! ### Small list facts -/

theorem head?_map_range {α : Type} (g : Nat → α) (n : Nat) :
    ((List.range (n + 1)).map g).head? = some (g 0) := by
  rw [List.range_succ_eq_map]
  simp

theorem getLast?_map_range {α : Type} (g : Nat → α) (n : Nat) :
    ((List.range (n + 1)).map g).getLast? = some (g n) := by
  rw [List.range_succ]
  simp

theorem filter_range_eq_singleton {n i : Nat} (h : i < n) :
    (List.range n).filter (fun j => j == i) = [i] := by
  induction n with
  | zero => omega
  | succ n ih =>
    rw [List.range_succ, List.filter_append]
    by_cases hin : i < n
    · rw [ih hin]
      have hni : ¬ ((n == i) = true) := by simp; omega
      simp [hni]
    · have hi : i = n := by omega
      subst hi
      have hzero : List.filter (fun j => j == i) (List.range i) = [] := by
        rw [List.filter_eq_nil_iff]
        intro a ha
        rw [List.mem_range] at ha
        simp
        omega
      simp [hzero]

theorem mem_of_head?_eq_some {α : Type} {l : List α} {a : α}
    (h : l.head? = some a) : a ∈ l := by
  cases l with
  | nil => simp at h
  | cons x t =>
    simp at h
    subst h
    exact List.mem_cons_self _ _

theorem rel_head_of_pairwise {α : Type} {R : α → α → Prop} :
    ∀ {l : List α} {a e : α}, List.Pairwise R l → l.head? = some a → e ∈ l →
      R a e ∨ a = e := by
  intro l a e hp ha he
  cases l with
  | nil => simp at ha
  | cons x t =>
    simp at ha
    subst ha
    rcases List.mem_cons.mp he with rfl | ht
    · exact Or.inr rfl
    · exact Or.inl (List.rel_of_pairwise_cons hp ht)

theorem rel_getLast_of_pairwise {α : Type} {R : α → α → Prop} {z e : α} :
    ∀ {l : List α}, List.Pairwise R l → l.getLast? = some z → e ∈ l →
      R e z ∨ e = z := by
  intro l
  induction l with
  | nil => intro _ hz _; simp at hz
  | cons x t ih =>
    intro hp hz he
    cases t with
    | nil =>
      simp at hz he
      subst hz; subst he
      exact Or.inr rfl
    | cons y s =>
      rw [List.getLast?_cons_cons] at hz
      rcases List.mem_cons.mp he with rfl | ht
      · exact Or.inl (List.rel_of_pairwise_cons hp (List.mem_of_getLast?_eq_some hz))
      · exact ih (List.Pairwise.of_cons hp) hz ht

theorem filterMap_snd_eq_map {g : Series} (h : ∀ p ∈ g, p.2.isSome) :
    g.filterMap (fun p => p.2) = g.map (fun p => p.2.getD 0) := by
  induction g with
  | nil => rfl
  | cons p t ih =>
    have hp := h p (List.mem_cons_self _ _)
    obtain ⟨v, hv⟩ := Option.isSome_iff_exists.mp hp
    rw [List.filterMap_cons, List.map_cons, hv]
    simp only [Option.getD_some]
    rw [ih (fun q hq => h q (List.mem_cons_of_mem _ hq))]

/-! ### Resampling lemmas -/

theorem lastClose_singleton (p : Date × Option ℚ) : lastClose [p] = p.2 := by
  obtain ⟨d, v⟩ := p
  cases v <;> rfl

theorem resample_monthly_nil : resample_monthly [] = [] := rfl

theorem resample_monthly_eq {data : Series} {a b : Date × Option ℚ}
    (ha : data.head? = some a) (hb : data.getLast? = some b) :
    resample_monthly data =
      (List.range (monthIdx b.1 + 1 - monthIdx a.1)).map
        (fun i => (monthEnd (monthIdx a.1 + i),
                   lastClose (mgroup data (monthIdx a.1 + i)))) := by
  unfold resample_monthly
  rw [ha, hb]

theorem mgroup_map_range {lo n i : Nat} (hi : i < n) (v : Nat → Option ℚ) :
    mgroup ((List.range n).map (fun j => (monthEnd (lo + j), v j))) (lo + i) =
      [(monthEnd (lo + i), v i)] := by
  unfold mgroup
  rw [List.filter_map]
  have hcong : (List.range n).filter
      ((fun p : Date × Option ℚ => monthIdx p.1 == lo + i) ∘
        (fun j => (monthEnd (lo + j), v j))) =
      (List.range n).filter (fun j => j == i) := by
    apply List.filter_congr
    intro j _
    simp only [Function.comp, monthIdx_monthEnd]
    by_cases hji : j = i
    · subst hji; simp
    · have : ¬ (lo + j = lo + i) := by omega
      simp [hji, this]
  rw [hcong, filter_range_eq_singleton hi]
  rfl

theorem resample_of_map_range (lo n : Nat) (v : Nat → Option ℚ) :
    resample_monthly ((List.range (n + 1)).map (fun j => (monthEnd (lo + j), v j))) =
      (List.range (n + 1)).map (fun j => (monthEnd (lo + j), v j)) := by
  rw [resample_monthly_eq (head?_map_range _ n) (getLast?_map_range _ n)]
  simp only [monthIdx_monthEnd, Nat.add_zero]
  have hn : lo + n + 1 - lo = n + 1 := by omega
  rw [hn]
  apply List.map_congr_left
  intro i hi
  rw [List.mem_range] at hi
  rw [mgroup_map_range hi v, lastClose_singleton]

theorem resample_monthly_idem (data : Series) :
    resample_monthly (resample_monthly data) = resample_monthly data := by
  cases hd : data.head? with
  | none =>
    have hnil : data = [] := by
      cases data with
      | nil => rfl
      | cons x t => simp at hd
    subst hnil
    rfl
  | some a =>
    have hne : data ≠ [] := by
      intro h
      subst h
      simp at hd
    obtain ⟨b, hb⟩ := Option.isSome_iff_exists.mp (List.getLast?_isSome.mpr hne)
    rw [resample_monthly_eq hd hb]
    cases hn : monthIdx b.1 + 1 - monthIdx a.1 with
    | zero => rfl
    | succ n => exact resample_of_map_range (monthIdx a.1) n _

/-- On a chronologically sorted series with valid months, the resampled series
is non-empty and its last index is a month-end. -/
theorem resample_getLast_monthEnd {data : Series} (hne : data ≠ [])
    (hsort : List.Pairwise (fun p q : Date × Option ℚ => p.1 ≤ q.1) data)
    (hvalid : ∀ p ∈ data, validMonth p.1) :
    ∃ k v, (resample_monthly data).getLast? = some (monthEnd k, v) := by
  obtain ⟨a, ha⟩ : ∃ a, data.head? = some a := by
    cases data with
    | nil => exact absurd rfl hne
    | cons x t => exact ⟨x, rfl⟩
  obtain ⟨b, hb⟩ := Option.isSome_iff_exists.mp (List.getLast?_isSome.mpr hne)
  have hamem : a ∈ data := mem_of_head?_eq_some ha
  have hbmem : b ∈ data := List.mem_of_getLast?_eq_some hb
  have hab : monthIdx a.1 ≤ monthIdx b.1 := by
    rcases rel_getLast_of_pairwise hsort hb hamem with h | rfl
    · exact monthIdx_le_of_le (hvalid a hamem) (hvalid b hbmem) h
    · exact Nat.le_refl _
  rw [resample_monthly_eq ha hb]
  have hsplit : monthIdx b.1 + 1 - monthIdx a.1 =
      (monthIdx b.1 - monthIdx a.1) + 1 := by omega
  rw [hsplit, getLast?_map_range]
  exact ⟨monthIdx a.1 + (monthIdx b.1 - monthIdx a.1), _, rfl⟩

/-! ### Endpoint pipeline lemmas -/

theorem fetch_eq_some {provider : Provider} {t p : String} {df : DataFrame}
    (hp : provider t p = .ok df) (hne : df ≠ []) :
    fetch_stock_data provider t p = some (closeSeries df) := by
  simp only [fetch_stock_data, hp]
  rw [if_neg (by simp [List.isEmpty_iff, hne])]

theorem closeSeries_ne_nil {df : DataFrame} (hne : df ≠ []) :
    closeSeries df ≠ [] := by
  unfold closeSeries
  simp [hne]

/-- The 200 branch of `get_forecast`, with every pipeline stage pinned. -/
theorem get_forecast_eq_ok {M : Type} {provider : Provider} {ticker : String}
    {fitLib : Series → LibResult M} {fcLib : M → Nat → LibResult (List ℚ)}
    {cs : Series} {ld lm : Date × Option ℚ} {m : M} {vs : List ℚ}
    (hf : fetch_stock_data provider (ticker ++ ".KA") "5y" = some cs)
    (hld : cs.getLast? = some ld)
    (hfit : fitLib (resample_monthly cs) = .ok m)
    (hfc : fcLib m 6 = .ok vs)
    (hlm : (resample_monthly cs).getLast? = some lm) :
    get_forecast M provider ticker fitLib fcLib =
      ⟨200, .ok
        { currentPrice := ld.2
          forecast := (((date_range_M lm.1 7).drop 1).zip vs).map
            (fun p => ⟨fmtDate p.1, p.2⟩)
          historicalDates := (resample_monthly cs).map (fun p => fmtDate p.1)
          historicalValues := (resample_monthly cs).map (fun p => p.2)
          forecastDates := ((((date_range_M lm.1 7).drop 1).zip vs).map
            (fun p => (⟨fmtDate p.1, p.2⟩ : ForecastEntry))).map (fun e => e.Date)
          forecastValues := ((((date_range_M lm.1 7).drop 1).zip vs).map
            (fun p => (⟨fmtDate p.1, p.2⟩ : ForecastEntry))).map
              (fun e => e.Forecast) }⟩ := by
  simp only [get_forecast, hf, hld, fit_sarimax, hfit, forecast, hfc, hlm]

/-! ### Claims -/

/-- C1: for every ticker for which the provider returns a non-empty daily
series, the current-value endpoint responds 200 with a JSON body whose
`currentPrice` field equals the last element of that daily close series. -/
theorem claim_C1 (provider : Provider) (ticker : String) (df : DataFrame)
    (q : Date × Option ℚ)
    (hp : provider (ticker ++ ".KA") "5y" = .ok df)
    (hne : df ≠ [])
    (hq : (closeSeries df).getLast? = some q) :
    get_current_value provider ticker = ⟨200, .price q.2⟩ := by
  simp only [get_current_value, fetch_eq_some hp hne, hq]

theorem claim_C1_witness :
    get_current_value
        (fun _ _ => .ok [(⟨2024, 1, 2⟩, ⟨some 10, some 100⟩),
                         (⟨2024, 1, 3⟩, ⟨some 11, some 105⟩)]) "HBL" =
      ⟨200, .price (some 105)⟩ :=
  claim_C1 _ "HBL" _ (⟨2024, 1, 3⟩, some 105) rfl (by simp) rfl

/-- C2: for every ticker for which the provider returns empty or absent data,
both the current-value endpoint and the forecast endpoint respond HTTP 400
with the body `{"error": "Invalid ticker symbol: <ticker>"}`. -/
theorem claim_C2 {M : Type} (provider : Provider) (ticker : String)
    (fitLib : Series → LibResult M) (fcLib : M → Nat → LibResult (List ℚ))
    (h : provider (ticker ++ ".KA") "5y" = .raise ∨
         provider (ticker ++ ".KA") "5y" = .ok []) :
    get_current_value provider ticker =
      ⟨400, .err ("Invalid ticker symbol: " ++ ticker)⟩ ∧
    get_forecast M provider ticker fitLib fcLib =
      ⟨400, .err ("Invalid ticker symbol: " ++ ticker)⟩ := by
  have hf : fetch_stock_data provider (ticker ++ ".KA") "5y" = none := by
    rcases h with h | h <;> simp [fetch_stock_data, h]
  constructor
  · simp only [get_current_value, hf]
  · simp only [get_forecast, hf]

theorem claim_C2_witness :
    get_current_value (fun _ _ => .raise) "XYZ" =
      ⟨400, .err "Invalid ticker symbol: XYZ"⟩ ∧
    get_forecast Unit (fun _ _ => .raise) "XYZ" (fun _ => .raise "e")
        (fun _ _ => .raise "e") =
      ⟨400, .err "Invalid ticker symbol: XYZ"⟩ :=
  claim_C2 _ "XYZ" _ _ (Or.inl rfl)

/-- C3: the fetch operation never raises to its caller (it is a total
function into `Option`): a provider raise or an empty frame yields `none`
(the error is logged, a side effect outside the embedding), and otherwise it
returns the close-price series. -/
theorem claim_C3 :
    (∀ (provider : Provider) (t p : String), provider t p = .raise →
        fetch_stock_data provider t p = none) ∧
    (∀ (provider : Provider) (t p : String), provider t p = .ok [] →
        fetch_stock_data provider t p = none) ∧
    (∀ (provider : Provider) (t p : String) (df : DataFrame), df ≠ [] →
        provider t p = .ok df →
        fetch_stock_data provider t p = some (closeSeries df)) := by
  refine ⟨?_, ?_, ?_⟩
  · intro provider t p h
    simp [fetch_stock_data, h]
  · intro provider t p h
    simp [fetch_stock_data, h]
  · intro provider t p df hne h
    exact fetch_eq_some h hne

theorem claim_C3_witness :
    fetch_stock_data (fun _ _ => .raise) "HBL.KA" "5y" = none ∧
    fetch_stock_data (fun _ _ => .ok []) "HBL.KA" "5y" = none ∧
    fetch_stock_data (fun _ _ => .ok [(⟨2024, 1, 2⟩, ⟨some 10, some 100⟩)])
        "HBL.KA" "5y" = some [(⟨2024, 1, 2⟩, some 100)] :=
  ⟨claim_C3.1 _ "HBL.KA" "5y" rfl,
   claim_C3.2.1 _ "HBL.KA" "5y" rfl,
   claim_C3.2.2 _ "HBL.KA" "5y"
     [(⟨2024, 1, 2⟩, ⟨some 10, some 100⟩)] (by simp) rfl⟩

/-- C10: for every input, the current-value endpoint returns exactly one of
two response shapes — HTTP 200 with `{"currentPrice": <number>}` or HTTP 400
with `{"error": "Invalid ticker symbol: <ticker>"}`; it never returns 500 and
never distinguishes a fetch failure from any other processing failure. -/
theorem claim_C10 (provider : Provider) (ticker : String) :
    (∃ p, get_current_value provider ticker = ⟨200, .price p⟩) ∨
    get_current_value provider ticker =
      ⟨400, .err ("Invalid ticker symbol: " ++ ticker)⟩ := by
  cases hf : fetch_stock_data provider (ticker ++ ".KA") "5y" with
  | none =>
    right
    simp only [get_current_value, hf]
  | some df =>
    cases hl : df.getLast? with
    | none =>
      right
      simp only [get_current_value, hf, hl]
    | some p =>
      exact Or.inl ⟨p.2, by simp only [get_current_value, hf, hl]⟩

/-- C7: monthly resampling is idempotent — for every series that is already
monthly (at most one entry per calendar month, indexed at month-ends),
applying `resample_monthly` twice yields the same result as applying it
once. -/
theorem claim_C7 (data : Series)
    (h1 : List.Pairwise
      (fun p q : Date × Option ℚ => monthIdx p.1 ≠ monthIdx q.1) data)
    (h2 : ∀ p ∈ data, p.1 = monthEnd (monthIdx p.1)) :
    resample_monthly (resample_monthly data) = resample_monthly data :=
  resample_monthly_idem data

theorem claim_C7_witness :
    resample_monthly (resample_monthly
      [(⟨2024, 1, 31⟩, some 5), (⟨2024, 3, 31⟩, some 7)]) =
    resample_monthly [(⟨2024, 1, 31⟩, some 5), (⟨2024, 3, 31⟩, some 7)] :=
  claim_C7 [(⟨2024, 1, 31⟩, some 5), (⟨2024, 3, 31⟩, some 7)]
    (by decide) (by decide)

/-- C8: `resample_monthly` groups entries by calendar month and for each month
with data keeps the value of the chronologically last entry (the last entry of
the month's bin, on a sorted series); it is a total (pure, deterministic)
function, an empty input yields an empty output, and the daily series
`[100, 102, 101, 105]` within a single month yields the one-entry monthly
series with value 105. -/
theorem claim_C8 (data : Series)
    (hsort : List.Pairwise (fun p q : Date × Option ℚ => p.1 ≤ q.1) data)
    (hvalid : ∀ p ∈ data, validMonth p.1)
    (hsome : ∀ p ∈ data, p.2.isSome) :
    resample_monthly [] = ([] : Series) ∧
    (∀ k (lastE : Date × Option ℚ), (mgroup data k).getLast? = some lastE →
        (monthEnd k, lastE.2) ∈ resample_monthly data) ∧
    resample_monthly
        [(⟨2024, 1, 2⟩, some 100), (⟨2024, 1, 3⟩, some 102),
         (⟨2024, 1, 4⟩, some 101), (⟨2024, 1, 5⟩, some 105)] =
      [(⟨2024, 1, 31⟩, some 105)] := by
  refine ⟨rfl, ?_, by decide⟩
  intro k lastE hg
  have hmemg : lastE ∈ mgroup data k := List.mem_of_getLast?_eq_some hg
  have hmem : lastE ∈ data := List.mem_of_mem_filter hmemg
  have hk : monthIdx lastE.1 = k := by
    have := List.of_mem_filter hmemg
    simpa using this
  have hne : data ≠ [] := by
    intro h
    subst h
    simp at hmem
  obtain ⟨a, ha⟩ : ∃ a, data.head? = some a := by
    cases data with
    | nil => exact absurd rfl hne
    | cons x t => exact ⟨x, rfl⟩
  obtain ⟨b, hb⟩ := Option.isSome_iff_exists.mp (List.getLast?_isSome.mpr hne)
  have hla : monthIdx a.1 ≤ k := by
    rcases rel_head_of_pairwise hsort ha hmem with h | heq
    · rw [← hk]
      exact monthIdx_le_of_le (hvalid a (mem_of_head?_eq_some ha))
        (hvalid lastE hmem) h
    · rw [← hk, heq]
  have hkb : k ≤ monthIdx b.1 := by
    rcases rel_getLast_of_pairwise hsort hb hmem with h | heq
    · rw [← hk]
      exact monthIdx_le_of_le (hvalid lastE hmem)
        (hvalid b (List.mem_of_getLast?_eq_some hb)) h
    · rw [← hk, heq]
  have hval : lastClose (mgroup data k) = lastE.2 := by
    have hsub : ∀ p ∈ mgroup data k, (p.2 : Option ℚ).isSome :=
      fun p hp => hsome p (List.mem_of_mem_filter hp)
    unfold lastClose
    rw [filterMap_snd_eq_map hsub, List.getLast?_map, hg]
    obtain ⟨v, hv⟩ := Option.isSome_iff_exists.mp (hsome lastE hmem)
    simp [hv]
  rw [resample_monthly_eq ha hb, List.mem_map]
  refine ⟨k - monthIdx a.1, ?_, ?_⟩
  · rw [List.mem_range]
    omega
  · have hik : monthIdx a.1 + (k - monthIdx a.1) = k := by omega
    rw [hik, hval]

theorem claim_C8_witness :
    ((⟨2024, 2, 29⟩, some 102) : Date × Option ℚ) ∈
      resample_monthly [(⟨2024, 1, 2⟩, some 100), (⟨2024, 2, 3⟩, some 102)] :=
  (claim_C8 [(⟨2024, 1, 2⟩, some 100), (⟨2024, 2, 3⟩, some 102)]
      (by decide) (by decide) (by decide)).2.1
    24289 (⟨2024, 2, 3⟩, some 102) (by decide)

/-- C6: in every successful forecast response, `forecastValues` equals the
sequence of `Forecast` fields of the entries of `forecast`, and
`forecastDates` equals the sequence of their `Date` fields. -/
theorem claim_C6 {M : Type} (provider : Provider) (ticker : String)
    (fitLib : Series → LibResult M) (fcLib : M → Nat → LibResult (List ℚ))
    (s : Nat) (r : ForecastOk)
    (h : get_forecast M provider ticker fitLib fcLib = ⟨s, .ok r⟩) :
    r.forecastValues = r.forecast.map (fun e => e.Forecast) ∧
    r.forecastDates = r.forecast.map (fun e => e.Date) := by
  simp only [get_forecast] at h
  repeat' split at h
  all_goals rw [HttpResponse.mk.injEq] at h
  all_goals obtain ⟨hs, hb⟩ := h
  all_goals
    first
      | (rw [FBody.ok.injEq] at hb
         subst hb
         simp [List.map_map])
      | exact absurd hb (by simp)

/-- A concrete 200 payload of `/forecast`, used to instantiate claims. -/
def sampleForecastOk : ForecastOk :=
  { currentPrice := some 100
    forecast := [⟨"29-02-2024", 1⟩, ⟨"31-03-2024", 2⟩, ⟨"30-04-2024", 3⟩,
                 ⟨"31-05-2024", 4⟩, ⟨"30-06-2024", 5⟩, ⟨"31-07-2024", 6⟩]
    historicalDates := ["31-01-2024"]
    historicalValues := [some 100]
    forecastDates := ["29-02-2024", "31-03-2024", "30-04-2024",
                      "31-05-2024", "30-06-2024", "31-07-2024"]
    forecastValues := [1, 2, 3, 4, 5, 6] }

theorem claim_C6_witness :
    sampleForecastOk.forecastValues =
        sampleForecastOk.forecast.map (fun e => e.Forecast) ∧
      sampleForecastOk.forecastDates =
        sampleForecastOk.forecast.map (fun e => e.Date) :=
  claim_C6 (fun _ _ => .ok [(⟨2024, 1, 31⟩, ⟨some 1, some 100⟩)]) "HBL"
    (fun _ => .ok ()) (fun _ _ => .ok [1, 2, 3, 4, 5, 6]) 200 sampleForecastOk
    (by decide)

theorem drop_date_range (k : Nat) :
    (date_range_M (monthEnd k) 7).drop 1 =
      (List.range 6).map (fun i => monthEnd (k + 1 + i)) := by
  unfold date_range_M
  simp only [monthIdx_monthEnd]
  rfl

theorem dates_of_zip (k : Nat) (vs : List ℚ) (hvs : vs.length = 6) :
    ((((date_range_M (monthEnd k) 7).drop 1).zip vs).map
        (fun p => (⟨fmtDate p.1, p.2⟩ : ForecastEntry))).map (fun e => e.Date) =
      ((List.range 6).map (fun i => monthEnd (k + 1 + i))).map fmtDate := by
  rw [List.map_map]
  have h1 : ((fun e : ForecastEntry => e.Date) ∘
      (fun p : Date × ℚ => (⟨fmtDate p.1, p.2⟩ : ForecastEntry))) =
      (fmtDate ∘ Prod.fst) := rfl
  rw [h1, ← List.map_map]
  rw [List.map_fst_zip _ vs (by rw [drop_date_range]; simp [hvs])]
  rw [drop_date_range]

/-- C4: whenever model fitting and forecasting both succeed (the library
returning the requested 6 values), the forecast endpoint's 200 response
contains exactly 6 forecast entries, and the forecastDates and forecastValues
arrays each have length exactly 6. -/
theorem claim_C4 {M : Type} (provider : Provider) (ticker : String)
    (fitLib : Series → LibResult M) (fcLib : M → Nat → LibResult (List ℚ))
    (df : DataFrame) (m : M) (vs : List ℚ)
    (hp : provider (ticker ++ ".KA") "5y" = .ok df) (hne : df ≠ [])
    (hsort : List.Pairwise (fun p q : Date × Option ℚ => p.1 ≤ q.1)
      (closeSeries df))
    (hvalid : ∀ p ∈ closeSeries df, validMonth p.1)
    (hfit : fitLib (resample_monthly (closeSeries df)) = .ok m)
    (hfc : fcLib m 6 = .ok vs) (hvs : vs.length = 6) :
    ∃ r, get_forecast M provider ticker fitLib fcLib = ⟨200, .ok r⟩ ∧
      r.forecast.length = 6 ∧ r.forecastDates.length = 6 ∧
      r.forecastValues.length = 6 := by
  have hcs := closeSeries_ne_nil hne
  obtain ⟨ld, hld⟩ := Option.isSome_iff_exists.mp (List.getLast?_isSome.mpr hcs)
  obtain ⟨k, v, hlm⟩ := resample_getLast_monthEnd hcs hsort hvalid
  refine ⟨_, get_forecast_eq_ok (fetch_eq_some hp hne) hld hfit hfc hlm,
    ?_, ?_, ?_⟩
  all_goals simp only [drop_date_range]
  all_goals simp [hvs]

theorem claim_C4_witness :
    ∃ r, get_forecast Unit
        (fun _ _ => .ok [(⟨2024, 1, 31⟩, ⟨some 1, some 100⟩)]) "HBL"
        (fun _ => .ok ()) (fun _ _ => .ok [1, 2, 3, 4, 5, 6]) =
          ⟨200, .ok r⟩ ∧
      r.forecast.length = 6 ∧ r.forecastDates.length = 6 ∧
      r.forecastValues.length = 6 :=
  claim_C4 (fun _ _ => .ok [(⟨2024, 1, 31⟩, ⟨some 1, some 100⟩)]) "HBL"
    (fun _ => .ok ()) (fun _ _ => .ok [1, 2, 3, 4, 5, 6])
    [(⟨2024, 1, 31⟩, ⟨some 1, some 100⟩)] () [1, 2, 3, 4, 5, 6]
    rfl (by simp) (by decide) (by decide) rfl rfl rfl

/-- C5: in every successful forecast response, the forecast dates form a
strictly increasing sequence of consecutive calendar month-ends whose first
element is the month-end immediately after — in particular strictly after —
the last historical month-end. -/
theorem claim_C5 {M : Type} (provider : Provider) (ticker : String)
    (fitLib : Series → LibResult M) (fcLib : M → Nat → LibResult (List ℚ))
    (df : DataFrame) (m : M) (vs : List ℚ)
    (hp : provider (ticker ++ ".KA") "5y" = .ok df) (hne : df ≠ [])
    (hsort : List.Pairwise (fun p q : Date × Option ℚ => p.1 ≤ q.1)
      (closeSeries df))
    (hvalid : ∀ p ∈ closeSeries df, validMonth p.1)
    (hfit : fitLib (resample_monthly (closeSeries df)) = .ok m)
    (hfc : fcLib m 6 = .ok vs) (hvs : vs.length = 6) :
    ∃ (r : ForecastOk) (lm : Date × Option ℚ) (ds : List Date),
      get_forecast M provider ticker fitLib fcLib = ⟨200, .ok r⟩ ∧
      (resample_monthly (closeSeries df)).getLast? = some lm ∧
      r.forecastDates = ds.map fmtDate ∧
      List.Chain' (fun a b : Date => a < b) ds ∧
      List.Chain' (fun a b : Date => b = nextMonthEnd a) ds ∧
      ds.head? = some (nextMonthEnd lm.1) ∧
      lm.1 < nextMonthEnd lm.1 := by
  have hcs := closeSeries_ne_nil hne
  obtain ⟨ld, hld⟩ := Option.isSome_iff_exists.mp (List.getLast?_isSome.mpr hcs)
  obtain ⟨k, v, hlm⟩ := resample_getLast_monthEnd hcs hsort hvalid
  have h6 : List.range 6 = [0, 1, 2, 3, 4, 5] := rfl
  refine ⟨_, (monthEnd k, v),
    (List.range 6).map (fun i => monthEnd (k + 1 + i)),
    get_forecast_eq_ok (fetch_eq_some hp hne) hld hfit hfc hlm, hlm,
    ?_, ?_, ?_, ?_, ?_⟩
  · exact dates_of_zip k vs hvs
  · rw [h6]
    simp only [List.map_cons, List.map_nil, List.chain'_cons,
      List.chain'_singleton, and_true]
    refine ⟨?_, ?_, ?_, ?_, ?_⟩ <;> exact monthEnd_lt_monthEnd (by omega)
  · rw [h6]
    simp only [List.map_cons, List.map_nil, List.chain'_cons,
      List.chain'_singleton, and_true]
    refine ⟨?_, ?_, ?_, ?_, ?_⟩ <;> rw [nextMonthEnd_monthEnd]
  · rw [h6]
    simp only [List.map_cons, List.head?_cons]
    try dsimp only
    rw [nextMonthEnd_monthEnd]
  · try dsimp only
    rw [nextMonthEnd_monthEnd]
    exact monthEnd_lt_monthEnd (by omega)

theorem claim_C5_witness :
    ∃ (r : ForecastOk) (lm : Date × Option ℚ) (ds : List Date),
      get_forecast Unit
          (fun _ _ => .ok [(⟨2024, 1, 31⟩, ⟨some 1, some 100⟩)]) "HBL"
          (fun _ => .ok ()) (fun _ _ => .ok [1, 2, 3, 4, 5, 6]) =
        ⟨200, .ok r⟩ ∧
      (resample_monthly
        (closeSeries [(⟨2024, 1, 31⟩, ⟨some 1, some 100⟩)])).getLast? =
          some lm ∧
      r.forecastDates = ds.map fmtDate ∧
      List.Chain' (fun a b : Date => a < b) ds ∧
      List.Chain' (fun a b : Date => b = nextMonthEnd a) ds ∧
      ds.head? = some (nextMonthEnd lm.1) ∧
      lm.1 < nextMonthEnd lm.1 :=
  claim_C5 (fun _ _ => .ok [(⟨2024, 1, 31⟩, ⟨some 1, some 100⟩)]) "HBL"
    (fun _ => .ok ()) (fun _ _ => .ok [1, 2, 3, 4, 5, 6])
    [(⟨2024, 1, 31⟩, ⟨some 1, some 100⟩)] () [1, 2, 3, 4, 5, 6]
    rfl (by simp) (by decide) (by decide) rfl rfl rfl

/-- C9: on the forecast endpoint with a successful fetch — a model-fit failure
yields 500 `{"error": "Failed to fit forecasting model"}`; a forecasting
failure after a successful fit yields 500 `{"error": "Failed to generate
forecast"}`; and every remaining outcome is the 200 payload, the 400
invalid-ticker response, or a 500 whose error field carries the raised
exception's message (the catch-all handler's shape). -/
theorem claim_C9 {M : Type} (provider : Provider) (ticker : String)
    (fitLib : Series → LibResult M) (fcLib : M → Nat → LibResult (List ℚ))
    (df : DataFrame)
    (hp : provider (ticker ++ ".KA") "5y" = .ok df) (hne : df ≠ []) :
    (∀ emsg, fitLib (resample_monthly (closeSeries df)) = .raise emsg →
        get_forecast M provider ticker fitLib fcLib =
          ⟨500, .err "Failed to fit forecasting model"⟩) ∧
    (∀ m emsg, fitLib (resample_monthly (closeSeries df)) = .ok m →
        fcLib m 6 = .raise emsg →
        get_forecast M provider ticker fitLib fcLib =
          ⟨500, .err "Failed to generate forecast"⟩) ∧
    ((∃ r, get_forecast M provider ticker fitLib fcLib = ⟨200, .ok r⟩) ∨
     get_forecast M provider ticker fitLib fcLib =
       ⟨400, .err ("Invalid ticker symbol: " ++ ticker)⟩ ∨
     (∃ msg, get_forecast M provider ticker fitLib fcLib =
        ⟨500, .err msg⟩)) := by
  have hf := fetch_eq_some hp hne
  have hcs := closeSeries_ne_nil hne
  obtain ⟨ld, hld⟩ := Option.isSome_iff_exists.mp (List.getLast?_isSome.mpr hcs)
  refine ⟨?_, ?_, ?_⟩
  · intro emsg hraise
    simp only [get_forecast, hf, hld, fit_sarimax, hraise]
  · intro m emsg hok hraise
    simp only [get_forecast, hf, hld, fit_sarimax, hok, forecast, hraise]
  · cases hfit : fitLib (resample_monthly (closeSeries df)) with
    | raise msg =>
      right; right
      exact ⟨"Failed to fit forecasting model",
        by simp only [get_forecast, hf, hld, fit_sarimax, hfit]⟩
    | ok m =>
      cases hfc : fcLib m 6 with
      | raise msg =>
        right; right
        exact ⟨"Failed to generate forecast",
          by simp only [get_forecast, hf, hld, fit_sarimax, hfit,
                forecast, hfc]⟩
      | ok vs =>
        cases hlm : (resample_monthly (closeSeries df)).getLast? with
        | none =>
          right; right
          exact ⟨"index -1 is out of bounds for axis 0 with size 0",
            by simp only [get_forecast, hf, hld, fit_sarimax, hfit,
                  forecast, hfc, hlm]⟩
        | some lm =>
          left
          exact ⟨_, get_forecast_eq_ok hf hld hfit hfc hlm⟩

theorem claim_C9_witness :
    get_forecast Unit (fun _ _ => .ok [(⟨2024, 1, 31⟩, ⟨some 1, some 100⟩)])
        "HBL" (fun _ => .raise "boom") (fun _ _ => .ok [1, 2, 3, 4, 5, 6]) =
      ⟨500, .err "Failed to fit forecasting model"⟩ :=
  (claim_C9 (fun _ _ => .ok [(⟨2024, 1, 31⟩, ⟨some 1, some 100⟩)]) "HBL"
      (fun _ => .raise "boom") (fun _ _ => .ok [1, 2, 3, 4, 5, 6])
      [(⟨2024, 1, 31⟩, ⟨some 1, some 100⟩)] rfl (by simp)).1 "boom" rfl
